import Mathlib

/-!
Verification of the synchronized media/overlay engine of the fitness-app
repository, shallowly embedded from the TypeScript sources:

* `src/components/workout/WebcamFeed.tsx` — module-level shared camera
  stream (`globalStream` / `streamInitPromise`), `getStream`,
  `initializeWebcam`, the unmount/beforeunload cleanup and `handleRetry`.
* `src/components/workout/PoseDetection.tsx` — the `detectPose`
  requestAnimationFrame loop and the `drawSkeleton` renderer.
* `src/components/workout/VideoContainer.tsx` (the native-video variant
  with keyboard controls) — `handleSeek`, `handleSeekRelative`,
  `handlePlayPause`, `handleReset` and the load callbacks.

Machine state is explicit: the module-level mutable variables of
`WebcamFeed.tsx` become fields of `GlobalCamState`, React `useState`
variables of `VideoContainer.tsx` become fields of `PlayerState`, and the
event-driven estimation loop becomes an explicit trace of events.
-/

namespace FitnessApp

/-! ## Capture stream sharing (WebcamFeed.tsx, lines 14-38, 51-61, 109-129)

`WebcamFeed.tsx` keeps two module-level variables:

```ts
let globalStream: MediaStream | null = null;
let streamInitPromise: Promise<MediaStream> | null = null;
```

We model promises by numeric ids handed out in order (`nextPromiseId`);
the stream a promise resolves to carries the same id.  `gumCalls` counts
how many times `navigator.mediaDevices.getUserMedia` has been invoked,
and `stoppedStreams` records every stream whose tracks were stopped. -/

structure GlobalCamState where
  globalStream : Option Nat
  streamInitPromise : Option Nat
  nextPromiseId : Nat
  gumCalls : Nat
  stoppedStreams : List Nat
deriving DecidableEq, Repr

/-- The initial module state: both variables `null`, no hardware calls yet. -/
def idleCam : GlobalCamState :=
  { globalStream := none, streamInitPromise := none, nextPromiseId := 0
    gumCalls := 0, stoppedStreams := [] }

/-- The synchronous part of `getStream` (WebcamFeed.tsx lines 18-29):
if `streamInitPromise` is non-null it is returned unchanged; otherwise a
fresh `getUserMedia` call is issued and its promise stored before any
suspension point, so later callers in the same single-threaded turn see it. -/
def getStream_begin (s : GlobalCamState) : Nat × GlobalCamState :=
  match s.streamInitPromise with
  | some p => (p, s)
  | none =>
      (s.nextPromiseId,
        { s with streamInitPromise := some s.nextPromiseId
                 nextPromiseId := s.nextPromiseId + 1
                 gumCalls := s.gumCalls + 1 })

/-- Resolution of the in-flight promise with a stream
(`globalStream = await streamInitPromise`, WebcamFeed.tsx line 32). -/
def getStream_resolveSuccess (p : Nat) (s : GlobalCamState) : GlobalCamState :=
  { s with globalStream := some p }

/-- Rejection of the in-flight promise (WebcamFeed.tsx lines 34-37):
the catch block resets `streamInitPromise` to `null` and rethrows, so a
later retry starts a fresh acquisition. -/
def getStream_resolveFailure (s : GlobalCamState) : GlobalCamState :=
  { s with streamInitPromise := none }

/-- The `cleanup` closure of the second `useEffect` (WebcamFeed.tsx lines
110-118), run both on `beforeunload` and — via the effect's destructor on
lines 121-124 — whenever ANY `WebcamFeed` component unmounts: if
`globalStream` is set, stop all of its tracks and null out both
module-level variables.  There is no consumer counting. -/
def unmountCleanup (s : GlobalCamState) : GlobalCamState :=
  match s.globalStream with
  | some st =>
      { s with stoppedStreams := st :: s.stoppedStreams
               globalStream := none
               streamInitPromise := none }
  | none => s

/-- Component-local `WebcamFeed` state: the video element's `srcObject`
and the three `useState` flags. -/
structure FeedState where
  srcObject : Option Nat
  isLoading : Bool
  error : Bool
  streamReady : Bool
deriving DecidableEq, Repr

/-- The `!isEnabled` branch of `initializeWebcam` (WebcamFeed.tsx lines
51-61): set loading, clear the error, detach the video element's
`srcObject`, clear loading, and return — the global stream and its tracks
are left untouched. -/
def initializeWebcam_disabled (f : FeedState) (g : GlobalCamState) :
    FeedState × GlobalCamState :=
  ({ f with srcObject := none, isLoading := false, error := false }, g)

/-- `k` sequential `getStream` entries with no intervening promise
resolution — the single-threaded interleaving of `k` concurrent
`acquire` calls issued while the first is still unresolved. -/
def acquireMany : Nat → GlobalCamState → List Nat × GlobalCamState
  | 0, s => ([], s)
  | k + 1, s =>
      let r := getStream_begin s
      let rest := acquireMany k r.2
      (r.1 :: rest.1, rest.2)

theorem acquireMany_inflight (k : Nat) :
    ∀ s p, s.streamInitPromise = some p →
      acquireMany k s = (List.replicate k p, s) := by
  induction k with
  | zero => intro s p _; rfl
  | succ k ih =>
      intro s p h
      simp only [acquireMany, getStream_begin, h]
      rw [ih s p h]
      rfl

/-- **C1.** Capture acquisition is de-duplicated.  (a) While an
acquisition promise `p` is stored, any number of further `acquire`
(`getStream`) calls all return the very same promise `p` — hence every
caller awaits the identical outcome, stream or rejection — and the module
state, in particular the `getUserMedia` call count, is unchanged.
(b) Starting from a state with no promise stored, `k + 1` concurrent
`acquire` calls all receive the same promise and issue exactly one
hardware (`getUserMedia`) request. -/
theorem acquire_deduplicated (k : Nat) :
    (∀ s p, s.streamInitPromise = some p →
      acquireMany k s = (List.replicate k p, s))
    ∧ (∀ s, s.streamInitPromise = none →
        acquireMany (k + 1) s =
          (List.replicate (k + 1) s.nextPromiseId,
            { s with streamInitPromise := some s.nextPromiseId
                     nextPromiseId := s.nextPromiseId + 1
                     gumCalls := s.gumCalls + 1 })) := by
  refine ⟨acquireMany_inflight k, ?_⟩
  intro s h
  simp only [acquireMany, getStream_begin, h]
  rw [acquireMany_inflight k _ s.nextPromiseId rfl]
  rfl

theorem acquire_deduplicated_witness :
    acquireMany 2
        { globalStream := none, streamInitPromise := some 5, nextPromiseId := 6
          gumCalls := 1, stoppedStreams := [] } =
      ([5, 5],
        { globalStream := none, streamInitPromise := some 5, nextPromiseId := 6
          gumCalls := 1, stoppedStreams := [] })
    ∧ acquireMany 3 idleCam =
        ([0, 0, 0],
          { globalStream := none, streamInitPromise := some 0, nextPromiseId := 1
            gumCalls := 1, stoppedStreams := [] }) := by
  constructor
  · have h := (acquire_deduplicated 2).1
      { globalStream := none, streamInitPromise := some 5, nextPromiseId := 6
        gumCalls := 1, stoppedStreams := [] } 5 rfl
    simpa using h
  · have h := (acquire_deduplicated 2).2 idleCam rfl
    simpa [idleCam] using h

/-- **C2, counterexample.**  The claim asserts reference counting: after
two acquires, the first release must not stop the tracks, and an explicit
disable must stop them immediately.  The code does the opposite on both
counts.  Concretely: one consumer acquires (promise 0), the acquisition
succeeds, a second consumer acquires the same shared stream; then the
first consumer unmounts — and `unmountCleanup` already stops stream 0's
tracks (claim demands they survive until the second release).  And after
a successful acquisition, disabling the camera (`isEnabled = false`)
leaves `stoppedStreams` empty — the tracks keep running (claim demands an
immediate stop). -/
theorem refcount_counterexample :
    (unmountCleanup
        (getStream_begin
          (getStream_resolveSuccess (getStream_begin idleCam).1
            (getStream_begin idleCam).2)).2).stoppedStreams = [0]
    ∧ (initializeWebcam_disabled
        { srcObject := some 0, isLoading := false, error := false, streamReady := true }
        (getStream_resolveSuccess (getStream_begin idleCam).1
          (getStream_begin idleCam).2)).2.stoppedStreams = [] := by
  decide

/-- **C2, amended.**  There is no reference counting: whenever the shared
stream is live, ANY single consumer unmount stops its tracks immediately
(regardless of how many other consumers still use it) and nulls both
module-level variables; and an explicit disable of the camera never stops
the tracks — it only detaches the component's video element. -/
theorem unmount_stops_disable_detaches (g : GlobalCamState) (st : Nat)
    (h : g.globalStream = some st) (f : FeedState) :
    (unmountCleanup g).stoppedStreams = st :: g.stoppedStreams
    ∧ (unmountCleanup g).globalStream = none
    ∧ (unmountCleanup g).streamInitPromise = none
    ∧ (initializeWebcam_disabled f g).2 = g
    ∧ (initializeWebcam_disabled f g).1.srcObject = none := by
  simp [unmountCleanup, h, initializeWebcam_disabled]

theorem unmount_stops_disable_detaches_witness :
    (unmountCleanup
        { globalStream := some 0, streamInitPromise := some 0, nextPromiseId := 1
          gumCalls := 1, stoppedStreams := [] }).stoppedStreams = [0]
    ∧ (initializeWebcam_disabled
        { srcObject := some 0, isLoading := false, error := false, streamReady := true }
        { globalStream := some 0, streamInitPromise := some 0, nextPromiseId := 1
          gumCalls := 1, stoppedStreams := [] }).2 =
      { globalStream := some 0, streamInitPromise := some 0, nextPromiseId := 1
        gumCalls := 1, stoppedStreams := [] } := by
  have h := unmount_stops_disable_detaches
    { globalStream := some 0, streamInitPromise := some 0, nextPromiseId := 1
      gumCalls := 1, stoppedStreams := [] } 0 rfl
    { srcObject := some 0, isLoading := false, error := false, streamReady := true }
  exact ⟨h.1, h.2.2.2.1⟩

/-- **C7.**  After a failed acquisition the catch block has reset
`streamInitPromise` to `null` (`getStream_resolveFailure`), so the next
`acquire` issued by `handleRetry` → `initializeWebcam` → `getStream`
creates a genuinely fresh in-flight promise: a new promise id distinct
from the failed one, with the `getUserMedia` call count incremented. -/
theorem retry_fresh_acquisition (s : GlobalCamState) (p : Nat)
    (_hp : s.streamInitPromise = some p) (hlt : p < s.nextPromiseId) :
    (getStream_resolveFailure s).streamInitPromise = none
    ∧ (getStream_begin (getStream_resolveFailure s)).1 = s.nextPromiseId
    ∧ (getStream_begin (getStream_resolveFailure s)).1 ≠ p
    ∧ (getStream_begin (getStream_resolveFailure s)).2.gumCalls = s.gumCalls + 1
    ∧ (getStream_begin (getStream_resolveFailure s)).2.streamInitPromise =
        some s.nextPromiseId := by
  refine ⟨rfl, rfl, ?_, rfl, rfl⟩
  simp only [getStream_begin, getStream_resolveFailure]
  exact Nat.ne_of_gt hlt

theorem retry_fresh_acquisition_witness :
    (getStream_begin (getStream_resolveFailure
      { globalStream := none, streamInitPromise := some 0, nextPromiseId := 1
        gumCalls := 1, stoppedStreams := [] })).1 ≠ 0
    ∧ (getStream_begin (getStream_resolveFailure
        { globalStream := none, streamInitPromise := some 0, nextPromiseId := 1
          gumCalls := 1, stoppedStreams := [] })).2.gumCalls = 2 := by
  have h := retry_fresh_acquisition
    { globalStream := none, streamInitPromise := some 0, nextPromiseId := 1
      gumCalls := 1, stoppedStreams := [] } 0 rfl (by decide)
  exact ⟨h.2.2.1, h.2.2.2.1⟩

/-! ## Skeleton rendering (PoseDetection.tsx, lines 100-154)

`drawSkeleton(ctx, keypoints)` draws a point for each keypoint whose
score is truthy and strictly above `0.3`, and a line for each entry of
its fixed `connections` table whose two endpoints (looked up in the
keypoint list by name with `Array.find`) both have truthy scores
strictly above `0.3`.  Scores are optional in the model (`Option ℚ`):
`undefined` and `0` are both falsy in the JavaScript guard
`keypoint.score && keypoint.score > 0.3`. -/

structure Keypoint where
  name : String
  x : ℚ
  y : ℚ
  score : Option ℚ
deriving DecidableEq, Repr

/-- A pose, as returned by `detector.estimatePoses`, is its keypoint list. -/
abbrev Pose := List Keypoint

/-- The `connections` table of `drawSkeleton` (PoseDetection.tsx lines
106-123), reproduced pair for pair in source order. -/
def connections : List (String × String) :=
  [("nose", "left_eye"),
   ("nose", "right_eye"),
   ("left_eye", "left_ear"),
   ("right_eye", "right_ear"),
   ("left_shoulder", "right_shoulder"),
   ("left_shoulder", "left_elbow"),
   ("right_shoulder", "right_elbow"),
   ("left_elbow", "left_wrist"),
   ("right_elbow", "right_wrist"),
   ("left_shoulder", "left_hip"),
   ("right_shoulder", "right_hip"),
   ("left_hip", "right_hip"),
   ("left_hip", "left_knee"),
   ("right_hip", "right_knee"),
   ("left_knee", "left_ankle"),
   ("right_knee", "right_ankle")]

/-- JavaScript truthiness of an optional confidence score
(`keypoint.score` as a boolean): `undefined` and `0` are falsy. -/
def scoreTruthy : Option ℚ → Bool
  | none => false
  | some s => decide (s ≠ 0)

/-- The comparison `score > 0.3` on an optional score: in JavaScript a
comparison against `undefined` is false. -/
def scoreGt03 : Option ℚ → Bool
  | none => false
  | some s => decide ((3 : ℚ) / 10 < s)

/-- The guard of the point-drawing pass (PoseDetection.tsx line 127):
`keypoint.score && keypoint.score > 0.3`. -/
def pointDrawn (kp : Keypoint) : Bool :=
  scoreTruthy kp.score && scoreGt03 kp.score

/-- The keypoints for which `drawSkeleton` emits a `ctx.arc`/`ctx.fill`
(PoseDetection.tsx lines 126-133). -/
def drawnPoints (kps : List Keypoint) : List Keypoint :=
  kps.filter pointDrawn

/-- The guard of the line-drawing pass (PoseDetection.tsx lines 136-145):
look up both endpoints by name with `Array.find` and require, in source
order, `startPoint?.score && endPoint?.score && startPoint.score > 0.3 &&
endPoint.score > 0.3` (optional chaining on a missing keypoint yields
`undefined`, which is falsy and compares false against `0.3`). -/
def lineDrawn (kps : List Keypoint) (c : String × String) : Bool :=
  let startPoint := kps.find? (fun kp => kp.name == c.1)
  let endPoint := kps.find? (fun kp => kp.name == c.2)
  scoreTruthy (startPoint.bind Keypoint.score)
    && scoreTruthy (endPoint.bind Keypoint.score)
    && scoreGt03 (startPoint.bind Keypoint.score)
    && scoreGt03 (endPoint.bind Keypoint.score)

/-- The connections for which `drawSkeleton` emits a
`ctx.moveTo`/`ctx.lineTo`/`ctx.stroke` (PoseDetection.tsx lines 136-153). -/
def drawnLines (kps : List Keypoint) : List (String × String) :=
  connections.filter (lineDrawn kps)

/-- A keypoint's confidence is present and strictly above the 0.3 threshold. -/
def scoreAbove (kp : Keypoint) : Prop :=
  ∃ s, kp.score = some s ∧ (3 : ℚ) / 10 < s

theorem pointDrawn_iff (kp : Keypoint) :
    pointDrawn kp = true ↔ scoreAbove kp := by
  unfold pointDrawn scoreAbove
  cases hs : kp.score with
  | none => simp [scoreTruthy, scoreGt03]
  | some s =>
      simp only [scoreTruthy, scoreGt03, Bool.and_eq_true, decide_eq_true_eq,
        Option.some.injEq]
      constructor
      · rintro ⟨-, hgt⟩; exact ⟨s, rfl, hgt⟩
      · rintro ⟨t, ht, hgt⟩
        cases ht
        exact ⟨by intro h0; rw [h0] at hgt; norm_num at hgt, hgt⟩

theorem lineDrawn_found (kps : List Keypoint) (c : String × String)
    (sp ep : Keypoint)
    (hs : kps.find? (fun k => k.name == c.1) = some sp)
    (he : kps.find? (fun k => k.name == c.2) = some ep) :
    (lineDrawn kps c = true ↔ scoreAbove sp ∧ scoreAbove ep) := by
  unfold lineDrawn
  rw [hs, he]
  simp only [Option.some_bind, Bool.and_eq_true]
  constructor
  · rintro ⟨⟨⟨-, -⟩, hga⟩, hgb⟩
    rcases hsa : sp.score with - | a
    · rw [hsa] at hga; simp [scoreGt03] at hga
    · rcases hea : ep.score with - | b
      · rw [hea] at hgb; simp [scoreGt03] at hgb
      · rw [hsa] at hga; rw [hea] at hgb
        simp only [scoreGt03, decide_eq_true_eq] at hga hgb
        exact ⟨⟨a, hsa, hga⟩, ⟨b, hea, hgb⟩⟩
  · rintro ⟨⟨a, hsa, ha⟩, ⟨b, hea, hb⟩⟩
    rw [hsa, hea]
    have ha0 : a ≠ 0 := by intro h0; rw [h0] at ha; norm_num at ha
    have hb0 : b ≠ 0 := by intro h0; rw [h0] at hb; norm_num at hb
    simp [scoreTruthy, scoreGt03, ha, hb, ha0, hb0]

/-- **C5.**  The renderer's confidence threshold is strictly
greater-than 0.3: a keypoint's point is drawn iff its score is present
and strictly above `0.3` (so a score of exactly `0.3` is not drawn), and
for a connection of the table whose endpoints resolve to keypoints `sp`
and `ep`, its line is drawn iff both `sp` and `ep` have scores strictly
above `0.3`. -/
theorem threshold_strict (kp : Keypoint) (kps : List Keypoint)
    (c : String × String) (sp ep : Keypoint)
    (hc : c ∈ connections)
    (hs : kps.find? (fun k => k.name == c.1) = some sp)
    (he : kps.find? (fun k => k.name == c.2) = some ep) :
    (kp ∈ drawnPoints kps ↔ kp ∈ kps ∧ scoreAbove kp)
    ∧ (kp.score = some ((3 : ℚ) / 10) → pointDrawn kp = false)
    ∧ (c ∈ drawnLines kps ↔ scoreAbove sp ∧ scoreAbove ep) := by
  refine ⟨?_, ?_, ?_⟩
  · rw [drawnPoints, List.mem_filter, pointDrawn_iff]
  · intro h30
    unfold pointDrawn
    rw [h30]
    simp only [scoreGt03, scoreTruthy]
    norm_num
  · rw [drawnLines, List.mem_filter, lineDrawn_found kps c sp ep hs he]
    constructor
    · rintro ⟨-, hd⟩; exact hd
    · intro hd; exact ⟨hc, hd⟩

theorem threshold_strict_witness :
    (⟨"nose", 0, 0, some (1 / 2)⟩ : Keypoint) ∈
        drawnPoints [⟨"nose", 0, 0, some (1 / 2)⟩, ⟨"left_eye", 1, 1, some (2 / 5)⟩]
    ∧ pointDrawn ⟨"nose", 0, 0, some ((3 : ℚ) / 10)⟩ = false
    ∧ ("nose", "left_eye") ∈
        drawnLines [⟨"nose", 0, 0, some (1 / 2)⟩, ⟨"left_eye", 1, 1, some (2 / 5)⟩] := by
  have h := threshold_strict ⟨"nose", 0, 0, some (1 / 2)⟩
    [⟨"nose", 0, 0, some (1 / 2)⟩, ⟨"left_eye", 1, 1, some (2 / 5)⟩]
    ("nose", "left_eye") ⟨"nose", 0, 0, some (1 / 2)⟩ ⟨"left_eye", 1, 1, some (2 / 5)⟩
    (by decide) rfl rfl
  have h30 := threshold_strict ⟨"nose", 0, 0, some ((3 : ℚ) / 10)⟩
    [⟨"nose", 0, 0, some (1 / 2)⟩, ⟨"left_eye", 1, 1, some (2 / 5)⟩]
    ("nose", "left_eye") ⟨"nose", 0, 0, some (1 / 2)⟩ ⟨"left_eye", 1, 1, some (2 / 5)⟩
    (by decide) rfl rfl
  refine ⟨?_, ?_, ?_⟩
  · exact h.1.mpr ⟨List.mem_cons_self _ _, 1 / 2, rfl, by norm_num⟩
  · exact h30.2.1 rfl
  · exact h.2.2.mpr ⟨⟨1 / 2, rfl, by norm_num⟩, ⟨2 / 5, rfl, by norm_num⟩⟩

/-- **C9.**  The skeleton connection table is a fixed ordered set of
exactly sixteen distinct named body-part pairs covering face, arms,
torso and legs — including the shoulder–elbow, hip–knee and eye–ear
pairs — and the line-drawing pass of `drawSkeleton` consults exactly
this table: every drawn line is an entry of the table satisfying the
endpoint test, and every entry satisfying the endpoint test is drawn. -/
theorem connection_table_fixed :
    connections.length = 16
    ∧ connections.Nodup
    ∧ ("left_shoulder", "left_elbow") ∈ connections
    ∧ ("left_hip", "left_knee") ∈ connections
    ∧ ("left_eye", "left_ear") ∈ connections
    ∧ ("left_shoulder", "left_hip") ∈ connections
    ∧ ("left_knee", "left_ankle") ∈ connections
    ∧ (∀ kps c, c ∈ drawnLines kps → c ∈ connections ∧ lineDrawn kps c = true)
    ∧ (∀ kps c, c ∈ connections → lineDrawn kps c = true → c ∈ drawnLines kps) := by
  refine ⟨by decide, by decide, by decide, by decide, by decide, by decide, by decide,
    ?_, ?_⟩
  · intro kps c hcd
    exact List.mem_filter.mp hcd
  · intro kps c hc hdrawn
    exact List.mem_filter.mpr ⟨hc, hdrawn⟩

theorem connection_table_fixed_witness :
    ("nose", "left_eye") ∈
      drawnLines [⟨"nose", 0, 0, some (2 / 5)⟩, ⟨"left_eye", 1, 1, some (2 / 5)⟩] := by
  refine connection_table_fixed.2.2.2.2.2.2.2.2
    [⟨"nose", 0, 0, some (2 / 5)⟩, ⟨"left_eye", 1, 1, some (2 / 5)⟩]
    ("nose", "left_eye") (by decide) ?_
  exact (lineDrawn_found
    [⟨"nose", 0, 0, some (2 / 5)⟩, ⟨"left_eye", 1, 1, some (2 / 5)⟩]
    ("nose", "left_eye") ⟨"nose", 0, 0, some (2 / 5)⟩
    ⟨"left_eye", 1, 1, some (2 / 5)⟩ rfl rfl).mpr
    ⟨⟨2 / 5, rfl, by norm_num⟩, ⟨2 / 5, rfl, by norm_num⟩⟩

/-- A keypoint's confidence is absent (`undefined`) or zero — falsy in
the JavaScript guards of `drawSkeleton`. -/
def scoreFalsy (kp : Keypoint) : Prop :=
  kp.score = none ∨ kp.score = some 0

/-- **C10.**  A keypoint with an absent or zero confidence score is never
rendered, whatever its coordinates: its point is not drawn, and no
connection line whose name lookup resolves to it (as either endpoint) is
drawn. -/
theorem falsy_score_not_drawn (kp : Keypoint) (kps : List Keypoint)
    (c : String × String) (hf : scoreFalsy kp) :
    pointDrawn kp = false
    ∧ (kps.find? (fun k => k.name == c.1) = some kp → lineDrawn kps c = false)
    ∧ (kps.find? (fun k => k.name == c.2) = some kp → lineDrawn kps c = false) := by
  have hts : scoreTruthy kp.score = false := by
    rcases hf with h | h <;> rw [h] <;> simp [scoreTruthy]
  refine ⟨?_, ?_, ?_⟩
  · unfold pointDrawn
    rw [hts]
    rfl
  · intro hfind
    unfold lineDrawn
    rw [hfind]
    simp only [Option.some_bind, hts]
    rfl
  · intro hfind
    unfold lineDrawn
    rw [hfind]
    simp only [Option.some_bind, hts, Bool.and_false, Bool.false_and]

theorem falsy_score_not_drawn_witness :
    pointDrawn ⟨"nose", 5, 7, none⟩ = false
    ∧ lineDrawn [⟨"nose", 5, 7, none⟩, ⟨"left_eye", 1, 1, some (2 / 5)⟩]
        ("nose", "left_eye") = false := by
  have h := falsy_score_not_drawn ⟨"nose", 5, 7, none⟩
    [⟨"nose", 5, 7, none⟩, ⟨"left_eye", 1, 1, some (2 / 5)⟩]
    ("nose", "left_eye") (Or.inl rfl)
  exact ⟨h.1, h.2.1 rfl⟩

/-! ## Playback controller (VideoContainer.tsx, native-video variant)

The `useState` variables of the second `VideoContainer` implementation
become the fields of `PlayerState`; the imperative
`videoRef.current.currentTime = t` assignment is recorded in
`lastElementSeek` (clamping inside the media element itself is the
external collaborator's business and is not part of this component).
`videoElExists` models `videoRef.current` being non-null. -/

structure PlayerState where
  isPlaying : Bool
  currentTime : ℚ
  duration : ℚ
  videoError : Bool
  isEnded : Bool
  isVideoLoading : Bool
  videoElExists : Bool
  lastElementSeek : Option ℚ
deriving DecidableEq, Repr

/-- `handleSeek([t])` (VideoContainer.tsx lines 363-375): guarded by
`videoRef.current && !videoError`; assigns the element's `currentTime`,
stores the raw `newTime` into the `currentTime` state, and clears
`isEnded` only when `newTime < duration`. -/
def handleSeek (t : ℚ) (s : PlayerState) : PlayerState :=
  if s.videoElExists && !s.videoError then
    { s with lastElementSeek := some t
             currentTime := t
             isEnded := if t < s.duration then false else s.isEnded }
  else s

/-- `handleSeekRelative(seconds)` (VideoContainer.tsx lines 377-385):
clamps `currentTime + seconds` into `[0, duration]` and delegates to
`handleSeek`. -/
def handleSeekRelative (d : ℚ) (s : PlayerState) : PlayerState :=
  if s.videoElExists && !s.videoError then
    handleSeek (max 0 (min s.duration (s.currentTime + d))) s
  else s

/-- `handleReset` (VideoContainer.tsx lines 353-361). -/
def handleReset (s : PlayerState) : PlayerState :=
  if s.videoElExists && !s.videoError then
    { s with lastElementSeek := some 0, currentTime := 0
             isPlaying := false, isEnded := false }
  else s

/-- `handlePlayPause` (VideoContainer.tsx lines 336-351): guarded by
`videoRef.current && !videoError && !isVideoLoading`; when starting from
Ended it first performs `handleReset()`; finally `setIsPlaying(!isPlaying)`
with the closed-over `isPlaying`.  (The async `play().catch` failure path
is the media element's error signalling, outside this transition.) -/
def handlePlayPause (s : PlayerState) : PlayerState :=
  if s.videoElExists && !s.videoError && !s.isVideoLoading then
    let s1 := if !s.isPlaying && s.isEnded then handleReset s else s
    { s1 with isPlaying := !s.isPlaying }
  else s

/-- `handleDurationChange` (VideoContainer.tsx lines 391-393). -/
def handleDurationChange (d : ℚ) (s : PlayerState) : PlayerState :=
  { s with duration := d }

/-- `handleVideoLoaded` (VideoContainer.tsx lines 415-417). -/
def handleVideoLoaded (s : PlayerState) : PlayerState :=
  { s with isVideoLoading := false }

/-- `handleVideoEnded` (VideoContainer.tsx lines 402-405). -/
def handleVideoEnded (s : PlayerState) : PlayerState :=
  { s with isPlaying := false, isEnded := true }

/-- The state at mount (VideoContainer.tsx lines 299-307), with a video
element attached. -/
def initialPlayer : PlayerState :=
  { isPlaying := false, currentTime := 0, duration := 0, videoError := false
    isEnded := false, isVideoLoading := true, videoElExists := true
    lastElementSeek := none }

/-- The state after the C6 scenario's load and play: duration 120 known,
loading finished, playback started. -/
def playingAt120 : PlayerState :=
  handlePlayPause (handleVideoLoaded (handleDurationChange 120 initialPlayer))

theorem playingAt120_eval :
    playingAt120 =
      { isPlaying := true, currentTime := 0, duration := 120, videoError := false
        isEnded := false, isVideoLoading := false, videoElExists := true
        lastElementSeek := none } := by
  rw [playingAt120, initialPlayer, handleDurationChange, handleVideoLoaded,
    handlePlayPause, if_pos] <;> rfl

theorem seek130_eval :
    handleSeek 130 playingAt120 =
      { isPlaying := true, currentTime := 130, duration := 120, videoError := false
        isEnded := false, isVideoLoading := false, videoElExists := true
        lastElementSeek := some 130 } := by
  rw [playingAt120_eval, handleSeek, if_pos] <;> simp

/-- **C6, counterexample.**  The claim requires `seek(130)` after a load
with duration `120` to clamp: `positionSeconds = 120`.  The code's
`handleSeek` stores the raw target: `positionSeconds = 130 ≠ 120`.  (The
status part of the scenario does hold: still Playing, not Ended.) -/
theorem seek_clamp_counterexample :
    (handleSeek 130 playingAt120).currentTime = 130
    ∧ (handleSeek 130 playingAt120).currentTime ≠ 120
    ∧ (handleSeek 130 playingAt120).isPlaying = true
    ∧ (handleSeek 130 playingAt120).isEnded = false := by
  rw [seek130_eval]
  exact ⟨rfl, by norm_num, rfl, rfl⟩

/-- **C6, amended.**  `handleSeek(t)` performs no clamping: whenever the
video element exists and there is no video error, it stores the raw
target `t` as `positionSeconds` (and as the imperative element seek) and
clears Ended exactly when `t < duration`, leaving the playing flag
untouched.  In the load-120/play/seek-130 scenario the position becomes
`130` — not `120` — while the status is unaffected (still Playing, not
Ended). -/
theorem seek_stores_raw_target (t : ℚ) (s : PlayerState)
    (hel : s.videoElExists = true) (herr : s.videoError = false) :
    (handleSeek t s).currentTime = t
    ∧ (handleSeek t s).lastElementSeek = some t
    ∧ (handleSeek t s).isEnded = (if t < s.duration then false else s.isEnded)
    ∧ (handleSeek t s).isPlaying = s.isPlaying
    ∧ (handleSeek 130 playingAt120).currentTime = 130
    ∧ (handleSeek 130 playingAt120).isPlaying = true
    ∧ (handleSeek 130 playingAt120).isEnded = false := by
  have hguard : (s.videoElExists && !s.videoError) = true := by
    rw [hel, herr]; rfl
  have hstep : handleSeek t s =
      { s with lastElementSeek := some t, currentTime := t
               isEnded := if t < s.duration then false else s.isEnded } := by
    rw [handleSeek, if_pos hguard]
  rw [hstep, seek130_eval]
  exact ⟨rfl, rfl, rfl, rfl, rfl, rfl, rfl⟩

theorem seek_stores_raw_target_witness :
    (handleSeek 130 playingAt120).currentTime = 130
    ∧ (handleSeek 130 playingAt120).lastElementSeek = some 130
    ∧ (handleSeek 130 playingAt120).isEnded = false := by
  have h := seek_stores_raw_target 130 playingAt120
    (by rw [playingAt120_eval]) (by rw [playingAt120_eval])
  exact ⟨h.1, h.2.1, h.2.2.2.2.2.2⟩

/-- **C8, counterexample.**  The claim asserts
`seekRelative(d) = seek(positionSeconds + d)`.  At position `0` with
duration `120` and `d = 130` the two differ: `handleSeekRelative`
clamps to `120`, while `handleSeek(0 + 130)` stores `130`. -/
theorem seekRelative_counterexample :
    (handleSeekRelative 130 playingAt120).currentTime = 120
    ∧ (handleSeek (playingAt120.currentTime + 130) playingAt120).currentTime = 130
    ∧ handleSeekRelative 130 playingAt120 ≠
        handleSeek (playingAt120.currentTime + 130) playingAt120 := by
  have h1 : handleSeekRelative 130 playingAt120 =
      handleSeek (max 0 (min playingAt120.duration (playingAt120.currentTime + 130)))
        playingAt120 := by
    rw [handleSeekRelative, if_pos]
    rw [playingAt120_eval]; rfl
  have h2 : max 0 (min playingAt120.duration (playingAt120.currentTime + 130)) =
      (120 : ℚ) := by
    rw [playingAt120_eval]
    norm_num
  have h3 : playingAt120.currentTime + 130 = (130 : ℚ) := by
    rw [playingAt120_eval]; norm_num
  have h4 : handleSeek (120 : ℚ) playingAt120 =
      { isPlaying := true, currentTime := 120, duration := 120, videoError := false
        isEnded := false, isVideoLoading := false, videoElExists := true
        lastElementSeek := some 120 } := by
    rw [playingAt120_eval, handleSeek, if_pos] <;> simp
  refine ⟨?_, ?_, ?_⟩
  · rw [h1, h2, h4]
  · rw [h3, seek130_eval]
  · rw [h1, h2, h3, h4, seek130_eval]
    intro hcontra
    have := congrArg PlayerState.currentTime hcontra
    norm_num at this

/-- **C8, amended.**  `handleSeekRelative(d)` produces exactly the same
state as `handleSeek` applied to the CLAMPED target
`max 0 (min duration (positionSeconds + d))` — the equivalence with a
plain `seek(positionSeconds + d)` only holds when that sum already lies
within `[0, duration]`, because `handleSeek` itself does not clamp. -/
theorem seekRelative_eq_seek_clamped (d : ℚ) (s : PlayerState) :
    handleSeekRelative d s =
      handleSeek (max 0 (min s.duration (s.currentTime + d))) s := by
  by_cases h : (s.videoElExists && !s.videoError) = true
  · rw [handleSeekRelative, if_pos h]
  · rw [handleSeekRelative, if_neg h, handleSeek, if_neg h]

/-! ## Estimation loop (PoseDetection.tsx, lines 44-72)

`detectPose` is an async function: it awaits
`detector.estimatePoses(videoElement)`; on success it clears the canvas
and draws each returned pose; a thrown estimation error is caught and
logged (`console.error`), skipping the draw; in EITHER case the final
statement `animationFrame = requestAnimationFrame(detectPose)` — placed
after the try/catch — schedules the next cycle.  We embed one cycle as
the list of observable events it emits, in the statement order of the
source, and the loop as the concatenation of its cycles.  `est n` is the
outcome of cycle `n`'s estimation call (the external capability). -/

inductive Ev where
  | estStart : Nat → Ev
  | estEnd : Nat → Ev
  | clearCanvas : Nat → Ev
  | drawPose : Nat → Ev
  | logError : Nat → Ev
  | sched : Nat → Ev
deriving DecidableEq, Repr

/-- The draw step of a cycle: on success `clearRect` followed by one
`drawSkeleton` call per returned pose; on a thrown estimation error the
caught, logged `console.error` instead (PoseDetection.tsx lines 49-61). -/
def drawStep (res : Except Unit (List Pose)) (n : Nat) : List Ev :=
  match res with
  | Except.ok poses => Ev.clearCanvas n :: poses.map (fun _ => Ev.drawPose n)
  | Except.error _ => [Ev.logError n]

/-- The events of cycle `n` of `detectPose`, in source statement order:
start and finish of the awaited `estimatePoses` call; the draw step (or
the caught failure's log); then `requestAnimationFrame` scheduling cycle
`n + 1` (PoseDetection.tsx line 63, after the try/catch). -/
def cycleEvents (res : Except Unit (List Pose)) (n : Nat) : List Ev :=
  [Ev.estStart n, Ev.estEnd n] ++ drawStep res n ++ [Ev.sched (n + 1)]

/-- The trace of the first `N` cycles of the loop: cycle `n + 1` begins
only once cycle `n` has emitted all of its events, because the
`requestAnimationFrame` callback fires after `detectPose`'s body has run
to completion. -/
def loopTrace (est : Nat → Except Unit (List Pose)) : Nat → List Ev
  | 0 => []
  | n + 1 => loopTrace est n ++ cycleEvents (est n) n

/-- One full execution of `detectPose`'s body, with the playback and
capture state threaded through: the function reads neither of them, and
its try/catch confines an estimation failure, so both states pass
through unchanged and the cycle always returns normally. -/
def detectPoseCycle (ps : PlayerState) (cs : GlobalCamState)
    (res : Except Unit (List Pose)) (n : Nat) :
    PlayerState × GlobalCamState × List Ev :=
  (ps, cs, cycleEvents res n)

def isEstStart : Ev → Bool
  | Ev.estStart _ => true
  | _ => false

def isEstEnd : Ev → Bool
  | Ev.estEnd _ => true
  | _ => false

/-- The cycle during which an event is emitted (`Ev.sched (n + 1)` is
emitted by cycle `n`). -/
def blockOf : Ev → Nat
  | Ev.estStart n => n
  | Ev.estEnd n => n
  | Ev.clearCanvas n => n
  | Ev.drawPose n => n
  | Ev.logError n => n
  | Ev.sched n => n - 1

theorem countP_draw_map_zero (p : Ev → Bool) (poses : List Pose) (n : Nat)
    (hp : p (Ev.drawPose n) = false) :
    (poses.map (fun _ => Ev.drawPose n)).countP p = 0 := by
  apply List.countP_eq_zero.mpr
  intro a ha
  obtain ⟨x, -, hx⟩ := List.mem_map.mp ha
  rw [← hx, hp]
  simp

theorem countP_drawStep_zero (p : Ev → Bool) (res : Except Unit (List Pose))
    (n : Nat) (hclear : p (Ev.clearCanvas n) = false)
    (hdraw : p (Ev.drawPose n) = false) (hlog : p (Ev.logError n) = false) :
    (drawStep res n).countP p = 0 := by
  cases res with
  | ok poses =>
      simp only [drawStep]
      rw [List.countP_cons_of_neg _ _ (by rw [hclear]; simp),
        countP_draw_map_zero p poses n hdraw]
  | error e0 =>
      simp only [drawStep]
      rw [List.countP_cons_of_neg _ _ (by rw [hlog]; simp)]
      rfl

theorem countP_estStart_cycle (res : Except Unit (List Pose)) (n : Nat) :
    (cycleEvents res n).countP isEstStart = 1 := by
  rw [cycleEvents, List.countP_append, List.countP_append,
    countP_drawStep_zero isEstStart res n rfl rfl rfl]
  rfl

theorem countP_estEnd_cycle (res : Except Unit (List Pose)) (n : Nat) :
    (cycleEvents res n).countP isEstEnd = 1 := by
  rw [cycleEvents, List.countP_append, List.countP_append,
    countP_drawStep_zero isEstEnd res n rfl rfl rfl]
  rfl

theorem blockOf_mem_cycle (res : Except Unit (List Pose)) (n : Nat) (e : Ev)
    (he : e ∈ cycleEvents res n) : blockOf e = n := by
  cases res with
  | ok poses =>
      simp only [cycleEvents, drawStep, List.mem_append, List.mem_cons,
        List.mem_map, List.not_mem_nil, or_false] at he
      obtain ((h | h) | h | ⟨a, -, h⟩) | h := he <;> subst h <;> rfl
  | error e0 =>
      simp only [cycleEvents, drawStep, List.mem_append, List.mem_cons,
        List.not_mem_nil, or_false] at he
      obtain ((h | h) | h) | h := he <;> subst h <;> rfl

theorem blockOf_mem_trace (est : Nat → Except Unit (List Pose)) (N : Nat)
    (e : Ev) (he : e ∈ loopTrace est N) : blockOf e < N := by
  induction N with
  | zero => simp [loopTrace] at he
  | succ n ih =>
      rw [loopTrace, List.mem_append] at he
      rcases he with h | h
      · exact Nat.lt_succ_of_lt (ih h)
      · rw [blockOf_mem_cycle (est n) n e h]
        exact Nat.lt_succ_self n

theorem pairwise_blockOf_const (l : List Ev) (n : Nat)
    (h : ∀ e ∈ l, blockOf e = n) :
    l.Pairwise (fun a b => blockOf a ≤ blockOf b) := by
  induction l with
  | nil => exact List.Pairwise.nil
  | cons a t ih =>
      refine List.Pairwise.cons ?_ (ih fun e he => h e (List.mem_cons_of_mem a he))
      intro b hb
      rw [h a (List.mem_cons_self a t), h b (List.mem_cons_of_mem a hb)]

theorem countP_take_le_total (p : Ev → Bool) (l : List Ev) (k : Nat) :
    (l.take k).countP p ≤ l.countP p :=
  (l.take_sublist k).countP_le p

theorem bounded_take_append (l₁ l₂ : List Ev)
    (hbal : l₁.countP isEstStart = l₁.countP isEstEnd)
    (hb₁ : ∀ k, (l₁.take k).countP isEstStart ≤ (l₁.take k).countP isEstEnd + 1)
    (hone : l₂.countP isEstStart = 1) :
    ∀ k, ((l₁ ++ l₂).take k).countP isEstStart ≤
      ((l₁ ++ l₂).take k).countP isEstEnd + 1 := by
  intro k
  rw [List.take_append_eq_append_take, List.countP_append, List.countP_append]
  by_cases hk : k ≤ l₁.length
  · have hz : k - l₁.length = 0 := Nat.sub_eq_zero_of_le hk
    rw [hz]
    simpa using hb₁ k
  · have hall : l₁.take k = l₁ :=
      List.take_of_length_le (Nat.le_of_lt (Nat.lt_of_not_le hk))
    rw [hall, hbal]
    have h2 : (l₂.take (k - l₁.length)).countP isEstStart ≤ 1 := by
      calc (l₂.take (k - l₁.length)).countP isEstStart
          ≤ l₂.countP isEstStart := countP_take_le_total _ _ _
        _ = 1 := hone
    omega

theorem loopTrace_balanced (est : Nat → Except Unit (List Pose)) (N : Nat) :
    (loopTrace est N).countP isEstStart = (loopTrace est N).countP isEstEnd := by
  induction N with
  | zero => rfl
  | succ n ih =>
      rw [loopTrace, List.countP_append, List.countP_append, ih,
        countP_estStart_cycle, countP_estEnd_cycle]

/-- **C3.**  The estimation loop keeps at most one estimation call
outstanding and draws in cycle order: in every prefix of the loop's
event trace the number of started estimation calls exceeds the number of
finished ones by at most one, and the whole trace is ordered by cycle —
an event of cycle `m` never appears after an event of a later cycle, so
cycle `n + 1` (scheduled by the `requestAnimationFrame` call that cycle
`n` issues only after its draw step) begins strictly after every draw of
cycle `n`, and overlay draws never occur out of cycle order. -/
theorem estimation_single_outstanding (est : Nat → Except Unit (List Pose))
    (N : Nat) :
    (∀ k, ((loopTrace est N).take k).countP isEstStart ≤
      ((loopTrace est N).take k).countP isEstEnd + 1)
    ∧ (loopTrace est N).Pairwise (fun a b => blockOf a ≤ blockOf b) := by
  induction N with
  | zero => exact ⟨fun k => by simp [loopTrace], List.Pairwise.nil⟩
  | succ n ih =>
      constructor
      · rw [loopTrace]
        exact bounded_take_append _ _ (loopTrace_balanced est n) ih.1
          (countP_estStart_cycle (est n) n)
      · rw [loopTrace]
        rw [List.pairwise_append]
        refine ⟨ih.2, ?_, ?_⟩
        · exact pairwise_blockOf_const _ n (blockOf_mem_cycle (est n) n)
        · intro a ha b hb
          rw [blockOf_mem_cycle (est n) n b hb]
          exact Nat.le_of_lt (blockOf_mem_trace est n a ha)

theorem clearCanvas_not_mem_error (res : Except Unit (List Pose)) (n m : Nat)
    (herr : res = Except.error ()) : Ev.clearCanvas m ∉ cycleEvents res n := by
  subst herr
  simp [cycleEvents, drawStep]

theorem drawPose_not_mem_error (res : Except Unit (List Pose)) (n m : Nat)
    (herr : res = Except.error ()) : Ev.drawPose m ∉ cycleEvents res n := by
  subst herr
  simp [cycleEvents, drawStep]

theorem clearCanvas_mem_cycle_eq (res : Except Unit (List Pose)) (n m : Nat)
    (h : Ev.clearCanvas m ∈ cycleEvents res n) : m = n := by
  have := blockOf_mem_cycle res n _ h
  simpa [blockOf] using this

theorem drawPose_mem_cycle_eq (res : Except Unit (List Pose)) (n m : Nat)
    (h : Ev.drawPose m ∈ cycleEvents res n) : m = n := by
  have := blockOf_mem_cycle res n _ h
  simpa [blockOf] using this

theorem mem_loopTrace_of_mem_cycle (est : Nat → Except Unit (List Pose))
    (N n : Nat) (hn : n < N) (e : Ev) (he : e ∈ cycleEvents (est n) n) :
    e ∈ loopTrace est N := by
  induction N with
  | zero => exact absurd hn (Nat.not_lt_zero n)
  | succ m ih =>
      rw [loopTrace, List.mem_append]
      rcases Nat.lt_succ_iff_lt_or_eq.mp hn with h | h
      · exact Or.inl (ih h)
      · subst h
        exact Or.inr he

theorem mem_cycle_of_mem_loopTrace (est : Nat → Except Unit (List Pose))
    (N : Nat) (e : Ev) (he : e ∈ loopTrace est N) :
    ∃ m, m < N ∧ e ∈ cycleEvents (est m) m := by
  induction N with
  | zero => simp [loopTrace] at he
  | succ n ih =>
      rw [loopTrace, List.mem_append] at he
      rcases he with h | h
      · obtain ⟨m, hm, hmem⟩ := ih h
        exact ⟨m, Nat.lt_succ_of_lt hm, hmem⟩
      · exact ⟨n, Nat.lt_succ_self n, h⟩

/-- **C4.**  An estimation failure in cycle `n` is logged and its draw
is skipped — the trace contains the `console.error` event for cycle `n`
but no canvas clear and no skeleton draw of cycle `n` — yet cycle
`n + 1` is still scheduled and, when it occurs, executes normally
(its estimation call appears in the trace); and the failure never
reaches the playback or capture state machines: `detectPose`'s body
returns their states unchanged, its try/catch having confined the
error. -/
theorem estimation_failure_isolated (est : Nat → Except Unit (List Pose))
    (N n : Nat) (ps : PlayerState) (cs : GlobalCamState)
    (hn : n < N) (herr : est n = Except.error ()) :
    Ev.logError n ∈ loopTrace est N
    ∧ Ev.clearCanvas n ∉ loopTrace est N
    ∧ Ev.drawPose n ∉ loopTrace est N
    ∧ Ev.sched (n + 1) ∈ loopTrace est N
    ∧ (n + 1 < N → Ev.estStart (n + 1) ∈ loopTrace est N)
    ∧ (detectPoseCycle ps cs (est n) n).1 = ps
    ∧ (detectPoseCycle ps cs (est n) n).2.1 = cs := by
  refine ⟨?_, ?_, ?_, ?_, ?_, rfl, rfl⟩
  · apply mem_loopTrace_of_mem_cycle est N n hn
    rw [herr]
    simp [cycleEvents, drawStep]
  · intro hmem
    obtain ⟨m, -, hcyc⟩ := mem_cycle_of_mem_loopTrace est N _ hmem
    have hm : n = m := clearCanvas_mem_cycle_eq (est m) m n hcyc
    subst hm
    exact clearCanvas_not_mem_error (est n) n n herr hcyc
  · intro hmem
    obtain ⟨m, -, hcyc⟩ := mem_cycle_of_mem_loopTrace est N _ hmem
    have hm : n = m := drawPose_mem_cycle_eq (est m) m n hcyc
    subst hm
    exact drawPose_not_mem_error (est n) n n herr hcyc
  · apply mem_loopTrace_of_mem_cycle est N n hn
    simp [cycleEvents]
  · intro hn1
    apply mem_loopTrace_of_mem_cycle est N (n + 1) hn1
    simp [cycleEvents]

theorem estimation_failure_isolated_witness :
    Ev.logError 0 ∈ loopTrace (fun _ => Except.error ()) 2
    ∧ Ev.clearCanvas 0 ∉ loopTrace (fun _ => Except.error ()) 2
    ∧ Ev.drawPose 0 ∉ loopTrace (fun _ => Except.error ()) 2
    ∧ Ev.sched 1 ∈ loopTrace (fun _ => Except.error ()) 2
    ∧ Ev.estStart 1 ∈ loopTrace (fun _ => Except.error ()) 2
    ∧ (detectPoseCycle initialPlayer idleCam (Except.error ()) 0).1 =
        initialPlayer := by
  have h := estimation_failure_isolated (fun _ => Except.error ()) 2 0
    initialPlayer idleCam (by decide) rfl
  exact ⟨h.1, h.2.1, h.2.2.1, h.2.2.2.1, h.2.2.2.2.1 (by decide), h.2.2.2.2.2.1⟩

end FitnessApp
